import Mathlib

/-!
Shallow embedding of the Trello-to-Prometheus exporter core
(`src/index.js`): the label-escaping helper, the Prometheus text
formatter `formatPrometheusMetrics`, the static lookup tables, and the
aggregation pipeline of `buildMetrics` (filtering, custom-field
resolution, the per-family counting loops and sample construction).
The HTTP layer and the Trello fetches are external collaborators and
are not modelled; `aggregate` takes the five already-parsed collections
as arguments, exactly as `buildMetrics` consumes them after the
`Promise.all`.
-/

/-- A Trello board record (fetched with `fields: "name"`).  The name is
optional: `board?.name || "(unknown)"` tolerates its absence. -/
structure Board where
  name : Option String
deriving DecidableEq

/-- A Trello list record (`fields: "name"`). -/
structure TrelloList where
  id : String
  name : String
deriving DecidableEq

/-- A Trello label record (`fields: "name,color"`); both display fields
may be absent (`label.name || label.color || "unlabeled"`). -/
structure TrelloLabel where
  id : String
  name : Option String
  color : Option String
deriving DecidableEq

/-- A Trello member record (`fields: "fullName,username"`). -/
structure Member where
  id : String
  fullName : Option String
  username : Option String
deriving DecidableEq

/-- One entry of a card's `customFieldItems`; only `idValue` is read. -/
structure CustomFieldItem where
  idValue : Option String
deriving DecidableEq

/-- A Trello card record as consumed by `buildMetrics`. -/
structure Card where
  id : String
  idList : Option String
  idLabels : Option (List String)
  idMembers : Option (List String)
  closed : Bool
  cardRole : Option String
  customFieldItems : Option (List CustomFieldItem)
deriving DecidableEq

/-- JavaScript `a || b` on an optional string: an absent or empty
string is falsy and falls through to the default. -/
def jsOr (a : Option String) (b : String) : String :=
  match a with
  | some s => if s = "" then b else s
  | none => b

/-- One row of the static `timeMap` table. -/
structure TimeInfo where
  range : String
  max : String
  med : String
  s : Nat
deriving DecidableEq

/-- The static `timeMap` lookup table, in source order. -/
def timeMap : List (String × TimeInfo) :=
  [("6317987e46e82a010a822ec0", TimeInfo.mk ("<5 min") ("5 min") ("3 minutes") 180),
   ("6317987e46e82a010a822ec1", TimeInfo.mk ("5 min - 15 min") ("5 min") ("10 minutes") 600),
   ("6317987e46e82a010a822ec2", TimeInfo.mk ("15 min - 30 min") ("5 min") ("23 minutes") 1380),
   ("6317987e46e82a010a822ec3", TimeInfo.mk ("30 min - 1 hour") ("5 min") ("45 minutes") 2700),
   ("6317987e46e82a010a822ec4", TimeInfo.mk ("1 hour - 3 hours") ("5 min") ("2 hours") 7200),
   ("6317987e46e82a010a822ec5", TimeInfo.mk ("3+ hours") ("5 min") ("4 hours") 14400)]

/-- The static `priorityMap` lookup table, in source order. -/
def priorityMap : List (String × String) :=
  [("63237551f4e1250062d584d7", "Highest"),
   ("63237551f4e1250062d584d8", "High"),
   ("63237551f4e1250062d584d9", "Medium"),
   ("63237551f4e1250062d584da", "Low"),
   ("63237551f4e1250062d584db", "Lowest")]

/-- The static `listNameToId` mapping, in source order. -/
def listNameToId : List (String × String) :=
  [("Inbox", "67f45c29f80d25da0f543428"),
   ("Ref", "640fbcf689fe9b86e3721b60"),
   ("Decomp", "67291a8ff4e1941fe4df8c71"),
   ("Ready", "62ba39f3660d8d5b9ec940fe"),
   ("Today", "6601f48e27469813be23ba2e"),
   ("Blocked", "62ba548b2155ca280fefba5b"),
   ("Progress", "62ba39f599d17e0e24c5a212"),
   ("Work", "65b184b75a5f898ab7010288"),
   ("Done", "62ba39f7fc9ece2c518208a7")]

/-- `listsToIgnore = [listNameToId.Ref, listNameToId.Decomp]`. -/
def listsToIgnore : List String :=
  ["640fbcf689fe9b86e3721b60", "67291a8ff4e1941fe4df8c71"]

/-- `doneLists = [listNameToId.Done]`. -/
def doneLists : List String :=
  ["62ba39f7fc9ece2c518208a7"]

/-- `ignoreCardsWithAtLeastOneOfTheseLabelIds = [labelNameToId.Divider]`. -/
def ignoreCardsWithAtLeastOneOfTheseLabelIds : List String :=
  ["681a3bbe267f382f9ed138e8"]

/-- Stage one of `escapeLabel`: the global replacement of a backslash
by a doubled backslash. -/
def escBackslash (cs : List Char) : List Char :=
  cs.flatMap (fun c => if c = '\\' then ['\\', '\\'] else [c])

/-- Stage two of `escapeLabel`: the global replacement of a double
quote by backslash-quote. -/
def escQuote (cs : List Char) : List Char :=
  cs.flatMap (fun c => if c = '\"' then ['\\', '\"'] else [c])

/-- Stage three of `escapeLabel`: the global replacement of a newline
by backslash-n. -/
def escNewline (cs : List Char) : List Char :=
  cs.flatMap (fun c => if c = '\n' then ['\\', 'n'] else [c])

/-- `escapeLabel`: three sequential global single-character
replacements, backslash first, then quote, then newline. -/
def escapeLabel (s : String) : String :=
  String.mk (escNewline (escQuote (escBackslash s.data)))

/-- One Prometheus sample: a label set (in object-insertion order) and
a numeric value.  All values produced by `buildMetrics` are
non-negative integers. -/
structure Sample where
  labels : List (String × String)
  value : Nat
deriving DecidableEq

/-- One metric family: its help text and its ordered sample list. -/
structure MetricData where
  help : String
  samples : List Sample
deriving DecidableEq

/-- One rendered sample line:
`name{k1="v1", k2="v2"} value` followed by a newline.  Note the
formatter applies `escapeLabel` to each label value here. -/
def formatSample (metricName : String) (sample : Sample) : String :=
  let labelText := String.intercalate (", ")
    (sample.labels.map (fun kv => kv.1 ++ "=\"" ++ escapeLabel kv.2 ++ "\""))
  metricName ++ "\x7b" ++ labelText ++ "\x7d " ++ toString sample.value ++ "\n"

/-- The TYPE line, the HELP line, then the sample lines of one family. -/
def formatFamily (metricName : String) (metricData : MetricData) : String :=
  "# TYPE " ++ metricName ++ " gauge\n" ++
  "# HELP " ++ metricName ++ " " ++ metricData.help ++ "\n" ++
  String.join (metricData.samples.map (formatSample metricName))

/-- `formatPrometheusMetrics`: concatenates the families in the
iteration (insertion) order of the metrics mapping. -/
def formatPrometheusMetrics (metrics : List (String × MetricData)) : String :=
  String.join (metrics.map (fun fam => formatFamily fam.1 fam.2))

/-- The card filter of `buildMetrics`: drop a card with a falsy
`idList`, with an ignored list, with at least one exclusionary label,
or with the separator card role. -/
def keepCard (c : Card) : Bool :=
  match c.idList with
  | none => false
  | some s =>
    if s = "" then false
    else if listsToIgnore.contains s then false
    else if (c.idLabels.getD []).any
        (fun l => ignoreCardsWithAtLeastOneOfTheseLabelIds.contains l) then false
    else if c.cardRole == some ("separator") then false
    else true

/-- The resolved custom info of a card: at most one time estimate and
at most one priority. -/
structure CustomInfo where
  time : Option TimeInfo
  priority : Option String
deriving DecidableEq

/-- The `timeMap` value of one custom-field item, when its `idValue`
is truthy and recognized. -/
def timeValueOf (item : CustomFieldItem) : Option TimeInfo :=
  match item.idValue with
  | none => none
  | some v => if v = "" then none else timeMap.lookup v

/-- The `priorityMap` value of one custom-field item, when its
`idValue` is truthy and recognized. -/
def priorityValueOf (item : CustomFieldItem) : Option String :=
  match item.idValue with
  | none => none
  | some v => if v = "" then none else priorityMap.lookup v

/-- One step of the enrichment loop: overwrite the time and the
priority fields whenever the item's `idValue` is recognized. -/
def applyItem (acc : CustomInfo) (item : CustomFieldItem) : CustomInfo :=
  match item.idValue with
  | none => acc
  | some v =>
    if v = "" then acc
    else
      let acc1 :=
        match timeMap.lookup v with
        | some t => CustomInfo.mk (some t) acc.priority
        | none => acc
      match priorityMap.lookup v with
      | some p => CustomInfo.mk acc1.time (some p)
      | none => acc1

/-- Scan the custom-field items, later matching entries overwriting
earlier ones. -/
def resolveCustom (items : List CustomFieldItem) : CustomInfo :=
  items.foldl applyItem (CustomInfo.mk none none)

/-- A card together with its resolved `customInfo`
(`{ ...c, customInfo: custom }`). -/
structure ECard where
  card : Card
  customInfo : CustomInfo
deriving DecidableEq

/-- The enrichment map over a card. -/
def enrich (c : Card) : ECard :=
  ECard.mk c (resolveCustom (c.customFieldItems.getD []))

/-- `const lists = (listsRaw || []).filter(l => !listsToIgnore.includes(l.id))`. -/
def survivingLists (listsRaw : Option (List TrelloList)) : List TrelloList :=
  (listsRaw.getD []).filter (fun l => !listsToIgnore.contains l.id)

/-- The card pipeline: default an absent collection to empty, filter,
then enrich. -/
def pipelineCards (cardsRaw : Option (List Card)) : List ECard :=
  ((cardsRaw.getD []).filter keepCard).map enrich

/-- The empty counting object (`{}` read through `|| 0`). -/
def zeroMap : String → Nat := fun _ => 0

/-- `m[k] = (m[k] || 0) + 1`. -/
def bump (m : String → Nat) (k : String) : String → Nat :=
  fun q => if q = k then m q + 1 else m q

/-- `m[k] = (m[k] || 0) + n`. -/
def bumpBy (m : String → Nat) (k : String) (n : Nat) : String → Nat :=
  fun q => if q = k then m q + n else m q

/-- One step of the `cardsByList` loop. -/
def stepList (m : String → Nat) (c : ECard) : String → Nat :=
  if !c.card.closed then bump m (c.card.idList.getD "") else m

/-- The `cardsByList` counting object. -/
def cardsByList (cards : List ECard) : String → Nat :=
  cards.foldl stepList zeroMap

/-- One step of the `cardsByPriority` loop: count a non-archived card
with a resolved priority whose list is not a done list. -/
def stepPriority (m : String → Nat) (c : ECard) : String → Nat :=
  match c.customInfo.priority with
  | some p =>
    if !c.card.closed && !doneLists.contains (c.card.idList.getD "") then bump m p else m
  | none => m

/-- The `cardsByPriority` counting object. -/
def cardsByPriority (cards : List ECard) : String → Nat :=
  cards.foldl stepPriority zeroMap

/-- One step of the `cardsByTime` loop: count a non-archived card with
a resolved time estimate, done lists included. -/
def stepTime (m : String → Nat) (c : ECard) : String → Nat :=
  match c.customInfo.time with
  | some t => if !c.card.closed then bump m t.range else m
  | none => m

/-- The `cardsByTime` counting object. -/
def cardsByTime (cards : List ECard) : String → Nat :=
  cards.foldl stepTime zeroMap

/-- One step of the `cardTimeByList` loop: add the resolved seconds of
a non-archived card to its list's total. -/
def stepTimeSeconds (m : String → Nat) (c : ECard) : String → Nat :=
  match c.customInfo.time with
  | some t => if !c.card.closed then bumpBy m (c.card.idList.getD "") t.s else m
  | none => m

/-- The `cardTimeByList` counting object. -/
def cardTimeByList (cards : List ECard) : String → Nat :=
  cards.foldl stepTimeSeconds zeroMap

/-- One step of the `cardsByLabel` loop: bump every entry of a
non-archived card's non-empty `idLabels` array. -/
def stepLabel (m : String → Nat) (c : ECard) : String → Nat :=
  if !c.card.closed && !(c.card.idLabels.getD []).isEmpty then
    (c.card.idLabels.getD []).foldl bump m
  else m

/-- The `cardsByLabel` counting object. -/
def cardsByLabel (cards : List ECard) : String → Nat :=
  cards.foldl stepLabel zeroMap

/-- One step of the `cardsByMember` loop: bump every entry of a
non-archived card's non-empty `idMembers` array. -/
def stepMember (m : String → Nat) (c : ECard) : String → Nat :=
  if !c.card.closed && !(c.card.idMembers.getD []).isEmpty then
    (c.card.idMembers.getD []).foldl bump m
  else m

/-- The `cardsByMember` counting object. -/
def cardsByMember (cards : List ECard) : String → Nat :=
  cards.foldl stepMember zeroMap

/-- `escapeLabel(board?.name || "(unknown)")` before the escape. -/
def boardDisplayName (board : Option Board) : String :=
  jsOr (board.bind (fun b => b.name)) ("(unknown)")

/-- `label.name || label.color || "unlabeled"`. -/
def labelDisplayName (lab : TrelloLabel) : String :=
  jsOr lab.name (jsOr lab.color ("unlabeled"))

/-- `m.fullName || m.username || m.id`. -/
def memberDisplayName (m : Member) : String :=
  jsOr m.fullName (jsOr m.username m.id)

/-- The single `trello_boards_total` sample. -/
def boardsTotalSamples : List Sample :=
  [Sample.mk [] 1]

/-- The single `trello_lists_per_board` sample. -/
def listsPerBoardSamples (boardName : String) (lists : List TrelloList) : List Sample :=
  [Sample.mk [("board", boardName)] lists.length]

/-- The `trello_cards_in_list_total` samples: one per surviving list,
zero counts included. -/
def cardsInListSamples (boardName : String) (lists : List TrelloList)
    (cards : List ECard) : List Sample :=
  lists.map (fun l =>
    Sample.mk [("board", boardName), ("list", escapeLabel l.name)] (cardsByList cards l.id))

/-- The `trello_time_in_list_total` samples: one per surviving list,
zero totals included. -/
def timeInListSamples (boardName : String) (lists : List TrelloList)
    (cards : List ECard) : List Sample :=
  lists.map (fun l =>
    Sample.mk [("board", boardName), ("list", escapeLabel l.name)] (cardTimeByList cards l.id))

/-- The `trello_cards_by_priority_total` samples: one per
`priorityMap` entry, in table order, zero counts included. -/
def cardsByPrioritySamples (boardName : String) (cards : List ECard) : List Sample :=
  priorityMap.map (fun e =>
    Sample.mk [("board", boardName), ("priority", escapeLabel e.2)] (cardsByPriority cards e.2))

/-- The `trello_cards_by_time_total` samples: one per `timeMap` entry,
in table order, zero counts included. -/
def cardsByTimeSamples (boardName : String) (cards : List ECard) : List Sample :=
  timeMap.map (fun e =>
    Sample.mk [("board", boardName), ("time", escapeLabel e.2.range)]
      (cardsByTime cards e.2.range))

/-- The `trello_labeled_cards_on_board` samples: one per label of the
labels collection whose count is positive. -/
def labeledCardsSamples (boardName : String) (labelList : List TrelloLabel)
    (cards : List ECard) : List Sample :=
  labelList.filterMap (fun lab =>
    if cardsByLabel cards lab.id > 0 then
      some (Sample.mk [("board", boardName), ("label", escapeLabel (labelDisplayName lab))]
        (cardsByLabel cards lab.id))
    else none)

/-- The `trello_cards_per_board_member` samples: one per member of the
members collection whose count is positive. -/
def memberCardsSamples (boardName : String) (memberList : List Member)
    (cards : List ECard) : List Sample :=
  memberList.filterMap (fun m =>
    if cardsByMember cards m.id > 0 then
      some (Sample.mk [("board", boardName), ("member", escapeLabel (memberDisplayName m))]
        (cardsByMember cards m.id))
    else none)

/-- The aggregation core of `buildMetrics`: the metrics mapping in the
insertion order of the object literal of lines 133-142 of
`src/index.js`, with every family's samples filled in. -/
def aggregate (board : Option Board) (listsRaw : Option (List TrelloList))
    (labelsRaw : Option (List TrelloLabel)) (membersRaw : Option (List Member))
    (cardsRaw : Option (List Card)) : List (String × MetricData) :=
  let boardName := escapeLabel (boardDisplayName board)
  let lists := survivingLists listsRaw
  let cards := pipelineCards cardsRaw
  [("trello_boards_total",
      MetricData.mk ("Total number of Trello boards") boardsTotalSamples),
   ("trello_cards_in_list_total",
      MetricData.mk ("Number of cards per list") (cardsInListSamples boardName lists cards)),
   ("trello_labeled_cards_on_board",
      MetricData.mk ("Number of cards per board and label")
        (labeledCardsSamples boardName (labelsRaw.getD []) cards)),
   ("trello_cards_per_board_member",
      MetricData.mk ("Number of cards per board and member")
        (memberCardsSamples boardName (membersRaw.getD []) cards)),
   ("trello_lists_per_board",
      MetricData.mk ("Number of lists per board") (listsPerBoardSamples boardName lists)),
   ("trello_time_in_list_total",
      MetricData.mk ("Total estimated time in each list (in seconds)")
        (timeInListSamples boardName lists cards)),
   ("trello_cards_by_priority_total",
      MetricData.mk ("Number of cards by priority (excluding done cards)")
        (cardsByPrioritySamples boardName cards)),
   ("trello_cards_by_time_total",
      MetricData.mk ("Number of cards by time (excluding done cards)")
        (cardsByTimeSamples boardName cards))]

/-- Whether the pattern occurs at the head of the text. -/
def seqAt : List Char → List Char → Bool
  | [], _ => true
  | _ :: _, [] => false
  | p :: ps, c :: cs => p == c && seqAt ps cs

/-- Whether the pattern occurs anywhere in the text. -/
def hasSeq (pat : List Char) : List Char → Bool
  | [] => seqAt pat []
  | c :: cs => seqAt pat (c :: cs) || hasSeq pat cs


/-- The per-card contribution of the `cardsByList` loop. -/
def gList (c : ECard) (q : String) : Nat :=
  if !c.card.closed && (q == c.card.idList.getD "") then 1 else 0

/-- The per-card contribution of the `cardsByPriority` loop. -/
def gPriority (c : ECard) (q : String) : Nat :=
  if !c.card.closed && (c.customInfo.priority == some q)
      && !doneLists.contains (c.card.idList.getD "") then 1 else 0

/-- The per-card contribution of the `cardsByTime` loop. -/
def gTime (c : ECard) (q : String) : Nat :=
  if !c.card.closed && (Option.map TimeInfo.range c.customInfo.time == some q) then 1 else 0

/-- The per-card contribution of the `cardTimeByList` loop. -/
def gTimeSeconds (c : ECard) (q : String) : Nat :=
  match c.customInfo.time with
  | some t => if !c.card.closed && (q == c.card.idList.getD "") then t.s else 0
  | none => 0

/-- The per-card contribution of the `cardsByLabel` loop. -/
def gLabel (c : ECard) (q : String) : Nat :=
  if !c.card.closed then (c.card.idLabels.getD []).count q else 0

/-- The per-card contribution of the `cardsByMember` loop. -/
def gMember (c : ECard) (q : String) : Nat :=
  if !c.card.closed then (c.card.idMembers.getD []).count q else 0

/-- JavaScript `a || b` on options: the left operand wins when it is
present (all wrapped values in play are truthy). -/
def jsOrOpt {beta : Type} (a b : Option beta) : Option beta :=
  match a with
  | some x => some x
  | none => b

/-- Boolean equality tests are symmetric. -/
theorem beq_swap {α : Type} [BEq α] [LawfulBEq α] (a b : α) : (a == b) = (b == a) := by
  cases h : a == b
  · cases h2 : b == a
    · rfl
    · exact absurd (eq_of_beq h2).symm (ne_of_beq_false h)
  · have hab : a = b := eq_of_beq h
    rw [hab]
    exact (beq_self_eq_true b).symm

/-- Reading a bumped counter: the increment lands exactly on its key. -/
theorem bump_apply (m : String → Nat) (k q : String) :
    bump m k q = m q + (if q = k then 1 else 0) := by
  unfold bump
  by_cases h : q = k <;> simp [h]

/-- Reading a counter bumped by n. -/
theorem bumpBy_apply (m : String → Nat) (k q : String) (n : Nat) :
    bumpBy m k n q = m q + (if q = k then n else 0) := by
  unfold bumpBy
  by_cases h : q = k <;> simp [h]

/-- Folding `bump` over a key list adds each key's multiplicity. -/
theorem foldl_bump_count (ks : List String) :
    ∀ (m : String → Nat) (q : String), (ks.foldl bump m) q = m q + ks.count q := by
  induction ks with
  | nil => intro m q; simp
  | cons k ks ih =>
    intro m q
    rw [List.foldl_cons, ih, bump_apply, List.count_cons]
    by_cases h : q = k
    · simp [h]
      omega
    · have hk : (k == q) = false := by
        rw [beq_swap]
        exact beq_false_of_ne h
      simp [h, hk]

/-- A fold whose step adds a per-element contribution computes the sum
of the contributions. -/
theorem foldl_step_apply {α : Type} (step : (String → Nat) → α → String → Nat)
    (g : α → String → Nat)
    (hstep : ∀ m c q, step m c q = m q + g c q) (cs : List α) :
    ∀ (m : String → Nat) (q : String),
      (cs.foldl step m) q = m q + (cs.map (fun c => g c q)).sum := by
  induction cs with
  | nil => intro m q; simp
  | cons c cs ih =>
    intro m q
    rw [List.foldl_cons, ih, hstep]
    simp
    omega

/-- Summing a boolean indicator counts the satisfying elements. -/
theorem sum_indicator_countP {α : Type} (f : α → Bool) (l : List α) :
    (l.map (fun a => if f a then 1 else 0)).sum = l.countP f := by
  induction l with
  | nil => simp
  | cons a l ih =>
    by_cases h : f a <;> simp [List.countP_cons, h, ih] <;> omega

/-- Counting a disjunction of disjoint predicates splits into a sum. -/
theorem countP_or_disjoint {α : Type} (f g : α → Bool) (l : List α)
    (h : ∀ a, ¬(f a = true ∧ g a = true)) :
    l.countP (fun a => f a || g a) = l.countP f + l.countP g := by
  induction l with
  | nil => simp
  | cons a l ih =>
    cases hf : f a
    · cases hg : g a
      · simp [List.countP_cons, hf, hg, ih]
      · simp [List.countP_cons, hf, hg, ih]
        omega
    · cases hg : g a
      · simp [List.countP_cons, hf, hg, ih]
        omega
      · exact absurd ⟨hf, hg⟩ (h a)

/-- Summing per-identifier counts over a duplicate-free identifier list
counts the elements whose key lies in the list. -/
theorem sum_countP_nodup {α : Type} (cs : List α) (p : α → Bool) (key : α → String) :
    ∀ (ids : List String), ids.Nodup →
      (ids.map (fun i => cs.countP (fun c => p c && (i == key c)))).sum
        = cs.countP (fun c => p c && ids.contains (key c)) := by
  intro ids
  induction ids with
  | nil =>
    intro _
    simp
  | cons i ids ih =>
    intro hnd
    obtain ⟨hni, hnd2⟩ := List.nodup_cons.mp hnd
    rw [List.map_cons, List.sum_cons, ih hnd2]
    rw [← countP_or_disjoint]
    · apply List.countP_congr
      intro c _
      cases hp : p c
      · simp [hp]
      · simp only [hp, Bool.true_and, List.contains_cons]
        rw [beq_swap]
    · intro c hc
      obtain ⟨h1, h2⟩ := hc
      have hky : key c = i := by
        have := (Bool.and_eq_true _ _).mp h1
        exact (beq_iff_eq.mp this.2).symm
      have hmem : key c ∈ ids := by
        have := (Bool.and_eq_true _ _).mp h2
        simpa using this.2
      rw [hky] at hmem
      exact hni hmem


theorem stepList_apply (m : String → Nat) (c : ECard) (q : String) :
    stepList m c q = m q + gList c q := by
  unfold stepList gList
  cases hc : c.card.closed
  · simp only [Bool.not_false, if_pos rfl, Bool.true_and, if_true]
    rw [bump_apply]
    by_cases h : q = c.card.idList.getD "" <;> simp [h]
  · simp


theorem stepPriority_apply (m : String → Nat) (c : ECard) (q : String) :
    stepPriority m c q = m q + gPriority c q := by
  unfold stepPriority gPriority
  cases hp : c.customInfo.priority with
  | none => simp
  | some p =>
    cases hc : c.card.closed
    · cases hd : doneLists.contains (c.card.idList.getD "")
      · simp only [Bool.not_false, Bool.and_true, Bool.true_and, if_pos rfl, if_true]
        rw [bump_apply]
        by_cases h : q = p
        · simp [h]
        · have hpq : (some p == some q) = false := by
            simp only [Option.some_beq_some]
            rw [beq_swap]
            exact beq_false_of_ne h
          simp [h, hpq]
      · simp [hd]
    · simp


theorem stepTime_apply (m : String → Nat) (c : ECard) (q : String) :
    stepTime m c q = m q + gTime c q := by
  unfold stepTime gTime
  cases hp : c.customInfo.time with
  | none => simp
  | some t =>
    cases hc : c.card.closed
    · simp only [Bool.not_false, if_pos rfl, Option.map_some, Bool.true_and, if_true]
      rw [bump_apply]
      by_cases h : q = t.range
      · simp [h]
      · have hpq : (some t.range == some q) = false := by
          simp only [Option.some_beq_some]
          rw [beq_swap]
          exact beq_false_of_ne h
        simp [h, hpq]
    · simp


theorem stepTimeSeconds_apply (m : String → Nat) (c : ECard) (q : String) :
    stepTimeSeconds m c q = m q + gTimeSeconds c q := by
  unfold stepTimeSeconds gTimeSeconds
  cases hp : c.customInfo.time with
  | none => simp
  | some t =>
    cases hc : c.card.closed
    · simp only [Bool.not_false, if_pos rfl, Bool.true_and, if_true]
      rw [bumpBy_apply]
      by_cases h : q = c.card.idList.getD "" <;> simp [h]
    · simp


theorem stepLabel_apply (m : String → Nat) (c : ECard) (q : String) :
    stepLabel m c q = m q + gLabel c q := by
  unfold stepLabel gLabel
  cases hc : c.card.closed
  · cases he : (c.card.idLabels.getD []).isEmpty
    · simp only [Bool.not_false, Bool.not_true, Bool.true_and, he, if_pos rfl, if_true]
      exact foldl_bump_count _ m q
    · rw [if_neg (by simp [he])]
      rw [List.isEmpty_iff.mp he]
      simp
  · simp


theorem stepMember_apply (m : String → Nat) (c : ECard) (q : String) :
    stepMember m c q = m q + gMember c q := by
  unfold stepMember gMember
  cases hc : c.card.closed
  · cases he : (c.card.idMembers.getD []).isEmpty
    · simp only [Bool.not_false, Bool.not_true, Bool.true_and, he, if_pos rfl, if_true]
      exact foldl_bump_count _ m q
    · rw [if_neg (by simp [he])]
      rw [List.isEmpty_iff.mp he]
      simp
  · simp

/-- `cardsByList` counts the non-archived cards referencing a key. -/
theorem cardsByList_countP (cards : List ECard) (q : String) :
    cardsByList cards q
      = cards.countP (fun c => !c.card.closed && (q == c.card.idList.getD "")) := by
  unfold cardsByList
  rw [foldl_step_apply stepList gList stepList_apply]
  simp only [zeroMap, gList, Nat.zero_add]
  exact sum_indicator_countP _ _

/-- `cardsByPriority` counts the non-archived cards with the given
resolved priority whose list is not a done list. -/
theorem cardsByPriority_countP (cards : List ECard) (q : String) :
    cardsByPriority cards q
      = cards.countP (fun c => !c.card.closed && (c.customInfo.priority == some q)
          && !doneLists.contains (c.card.idList.getD "")) := by
  unfold cardsByPriority
  rw [foldl_step_apply stepPriority gPriority stepPriority_apply]
  simp only [zeroMap, gPriority, Nat.zero_add]
  exact sum_indicator_countP _ _

/-- `cardsByTime` counts the non-archived cards with the given
resolved time range, done lists included. -/
theorem cardsByTime_countP (cards : List ECard) (q : String) :
    cardsByTime cards q
      = cards.countP (fun c => !c.card.closed
          && (Option.map TimeInfo.range c.customInfo.time == some q)) := by
  unfold cardsByTime
  rw [foldl_step_apply stepTime gTime stepTime_apply]
  simp only [zeroMap, gTime, Nat.zero_add]
  exact sum_indicator_countP _ _

/-- Filtering a list with the pivot kept splits around the pivot. -/
theorem pipelineCards_insert (cs1 cs2 : List Card) (c : Card) (h : keepCard c = true) :
    pipelineCards (some (cs1 ++ c :: cs2))
      = pipelineCards (some cs1) ++ enrich c :: pipelineCards (some cs2) := by
  unfold pipelineCards
  simp [List.filter_append, List.filter_cons, h]

/-- Filtering a list with the pivot dropped forgets the pivot. -/
theorem pipelineCards_drop (cs1 cs2 : List Card) (c : Card) (h : keepCard c = false) :
    pipelineCards (some (cs1 ++ c :: cs2)) = pipelineCards (some (cs1 ++ cs2)) := by
  unfold pipelineCards
  simp [List.filter_append, List.filter_cons, h]

/-- The card pipeline distributes over concatenation. -/
theorem pipelineCards_union (cs1 cs2 : List Card) :
    pipelineCards (some (cs1 ++ cs2))
      = pipelineCards (some cs1) ++ pipelineCards (some cs2) := by
  unfold pipelineCards
  simp [List.filter_append]

/-- Inserting one element into a counted list adds exactly its
contribution. -/
theorem count_fold_insert {α : Type} (step : (String → Nat) → α → String → Nat)
    (g : α → String → Nat)
    (hstep : ∀ m c q, step m c q = m q + g c q)
    (A B : List α) (e : α) (q : String) :
    ((A ++ e :: B).foldl step zeroMap) q = ((A ++ B).foldl step zeroMap) q + g e q := by
  rw [foldl_step_apply step g hstep, foldl_step_apply step g hstep]
  simp only [zeroMap, List.map_append, List.map_cons, List.sum_append, List.sum_cons,
    Nat.zero_add]
  omega

/-- The time field after one enrichment step: a recognized time value
overwrites, anything else preserves. -/
theorem applyItem_time (acc : CustomInfo) (i : CustomFieldItem) :
    (applyItem acc i).time = jsOrOpt (timeValueOf i) acc.time := by
  unfold applyItem timeValueOf
  cases hv : i.idValue with
  | none => rfl
  | some v =>
    by_cases he : v = ""
    · simp [he, jsOrOpt]
    · simp only [he, if_false, ite_false]
      cases ht : timeMap.lookup v with
      | some t => cases hp : priorityMap.lookup v <;> simp [ht, hp, jsOrOpt]
      | none => cases hp : priorityMap.lookup v <;> simp [ht, hp, jsOrOpt]

/-- The priority field after one enrichment step. -/
theorem applyItem_priority (acc : CustomInfo) (i : CustomFieldItem) :
    (applyItem acc i).priority = jsOrOpt (priorityValueOf i) acc.priority := by
  unfold applyItem priorityValueOf
  cases hv : i.idValue with
  | none => rfl
  | some v =>
    by_cases he : v = ""
    · simp [he, jsOrOpt]
    · simp only [he, if_false, ite_false]
      cases ht : timeMap.lookup v with
      | some t => cases hp : priorityMap.lookup v <;> simp [ht, hp, jsOrOpt]
      | none => cases hp : priorityMap.lookup v <;> simp [ht, hp, jsOrOpt]

/-- The last element of a nonempty list through `jsOrOpt`. -/
theorem getLast_cons_or {beta : Type} (t : beta) (l : List beta) :
    (t :: l).getLast? = jsOrOpt l.getLast? (some t) := by
  cases l with
  | nil => rfl
  | cons b bs =>
    rw [List.getLast?_cons_cons]
    have hs : ((b :: bs).getLast?).isSome := by
      rw [List.getLast?_isSome]
      simp
    obtain ⟨x, hx⟩ := Option.isSome_iff_exists.mp hs
    rw [hx]
    rfl

/-- A left fold that keeps the last present value computes the last
element of the filtered list. -/
theorem foldl_or_last {beta gm : Type} (f : gm → Option beta) (items : List gm) :
    ∀ a0 : Option beta, items.foldl (fun a i => jsOrOpt (f i) a) a0
      = jsOrOpt ((items.filterMap f).getLast?) a0 := by
  induction items with
  | nil => intro a0; rfl
  | cons i is ih =>
    intro a0
    rw [List.foldl_cons, ih]
    cases hf : f i with
    | none =>
      rw [List.filterMap_cons_none hf]
      simp [jsOrOpt]
    | some b =>
      rw [List.filterMap_cons_some hf, getLast_cons_or]
      cases hx : (is.filterMap f).getLast? <;> simp [jsOrOpt]

/-- Projecting the time field out of the enrichment fold. -/
theorem foldl_applyItem_time (items : List CustomFieldItem) :
    ∀ acc : CustomInfo, (items.foldl applyItem acc).time
      = items.foldl (fun a i => jsOrOpt (timeValueOf i) a) acc.time := by
  induction items with
  | nil => intro acc; rfl
  | cons i is ih =>
    intro acc
    rw [List.foldl_cons, List.foldl_cons, ih, applyItem_time]

/-- Projecting the priority field out of the enrichment fold. -/
theorem foldl_applyItem_priority (items : List CustomFieldItem) :
    ∀ acc : CustomInfo, (items.foldl applyItem acc).priority
      = items.foldl (fun a i => jsOrOpt (priorityValueOf i) a) acc.priority := by
  induction items with
  | nil => intro acc; rfl
  | cons i is ih =>
    intro acc
    rw [List.foldl_cons, List.foldl_cons, ih, applyItem_priority]

/-- The resolved time estimate is the last recognized time value. -/
theorem resolveCustom_time (items : List CustomFieldItem) :
    (resolveCustom items).time = (items.filterMap timeValueOf).getLast? := by
  unfold resolveCustom
  rw [foldl_applyItem_time, foldl_or_last]
  cases hx : (items.filterMap timeValueOf).getLast? <;> simp [jsOrOpt]

/-- The resolved priority is the last recognized priority value. -/
theorem resolveCustom_priority (items : List CustomFieldItem) :
    (resolveCustom items).priority = (items.filterMap priorityValueOf).getLast? := by
  unfold resolveCustom
  rw [foldl_applyItem_priority, foldl_or_last]
  cases hx : (items.filterMap priorityValueOf).getLast? <;> simp [jsOrOpt]

/-- Claim C7: for every card whose custom-field items contain two or
more recognized time-table identifiers, the resolved time estimate is
the value of the entry appearing last in the item list, and
symmetrically for the priority table: later matching entries overwrite
earlier ones. -/
theorem c7_last_match_wins (c : Card) :
    (2 ≤ ((c.customFieldItems.getD []).filterMap timeValueOf).length →
      (enrich c).customInfo.time
        = ((c.customFieldItems.getD []).filterMap timeValueOf).getLast?) ∧
    (2 ≤ ((c.customFieldItems.getD []).filterMap priorityValueOf).length →
      (enrich c).customInfo.priority
        = ((c.customFieldItems.getD []).filterMap priorityValueOf).getLast?) := by
  constructor
  · intro _
    exact resolveCustom_time _
  · intro _
    exact resolveCustom_priority _

/-- Witness for C7: a card with two recognized time identifiers and
two recognized priority identifiers resolves both fields to the later
entry. -/
theorem c7_last_match_wins_witness :
    2 ≤ (((Card.mk ("w7") (some ("67f45c29f80d25da0f543428")) none none false none
      (some [CustomFieldItem.mk (some ("6317987e46e82a010a822ec0")),
             CustomFieldItem.mk (some ("63237551f4e1250062d584d7")),
             CustomFieldItem.mk (some ("6317987e46e82a010a822ec1")),
             CustomFieldItem.mk (some ("63237551f4e1250062d584d9"))])).customFieldItems.getD []).filterMap timeValueOf).length ∧
    2 ≤ (((Card.mk ("w7") (some ("67f45c29f80d25da0f543428")) none none false none
      (some [CustomFieldItem.mk (some ("6317987e46e82a010a822ec0")),
             CustomFieldItem.mk (some ("63237551f4e1250062d584d7")),
             CustomFieldItem.mk (some ("6317987e46e82a010a822ec1")),
             CustomFieldItem.mk (some ("63237551f4e1250062d584d9"))])).customFieldItems.getD []).filterMap priorityValueOf).length ∧
    (enrich (Card.mk ("w7") (some ("67f45c29f80d25da0f543428")) none none false none
      (some [CustomFieldItem.mk (some ("6317987e46e82a010a822ec0")),
             CustomFieldItem.mk (some ("63237551f4e1250062d584d7")),
             CustomFieldItem.mk (some ("6317987e46e82a010a822ec1")),
             CustomFieldItem.mk (some ("63237551f4e1250062d584d9"))]))).customInfo.time
      = (((Card.mk ("w7") (some ("67f45c29f80d25da0f543428")) none none false none
      (some [CustomFieldItem.mk (some ("6317987e46e82a010a822ec0")),
             CustomFieldItem.mk (some ("63237551f4e1250062d584d7")),
             CustomFieldItem.mk (some ("6317987e46e82a010a822ec1")),
             CustomFieldItem.mk (some ("63237551f4e1250062d584d9"))])).customFieldItems.getD []).filterMap timeValueOf).getLast? ∧
    (enrich (Card.mk ("w7") (some ("67f45c29f80d25da0f543428")) none none false none
      (some [CustomFieldItem.mk (some ("6317987e46e82a010a822ec0")),
             CustomFieldItem.mk (some ("63237551f4e1250062d584d7")),
             CustomFieldItem.mk (some ("6317987e46e82a010a822ec1")),
             CustomFieldItem.mk (some ("63237551f4e1250062d584d9"))]))).customInfo.priority
      = (((Card.mk ("w7") (some ("67f45c29f80d25da0f543428")) none none false none
      (some [CustomFieldItem.mk (some ("6317987e46e82a010a822ec0")),
             CustomFieldItem.mk (some ("63237551f4e1250062d584d7")),
             CustomFieldItem.mk (some ("6317987e46e82a010a822ec1")),
             CustomFieldItem.mk (some ("63237551f4e1250062d584d9"))])).customFieldItems.getD []).filterMap priorityValueOf).getLast? :=
  ⟨by decide, by decide,
   (c7_last_match_wins (Card.mk ("w7") (some ("67f45c29f80d25da0f543428")) none none false none
      (some [CustomFieldItem.mk (some ("6317987e46e82a010a822ec0")),
             CustomFieldItem.mk (some ("63237551f4e1250062d584d7")),
             CustomFieldItem.mk (some ("6317987e46e82a010a822ec1")),
             CustomFieldItem.mk (some ("63237551f4e1250062d584d9"))]))).1 (by decide),
   (c7_last_match_wins (Card.mk ("w7") (some ("67f45c29f80d25da0f543428")) none none false none
      (some [CustomFieldItem.mk (some ("6317987e46e82a010a822ec0")),
             CustomFieldItem.mk (some ("63237551f4e1250062d584d7")),
             CustomFieldItem.mk (some ("6317987e46e82a010a822ec1")),
             CustomFieldItem.mk (some ("63237551f4e1250062d584d9"))]))).2 (by decide)⟩

/-- Claim C6: a card carrying at least one exclusionary label
identifier contributes to no sample of any metric family: deleting it
from the input leaves the whole metrics mapping unchanged, regardless
of its other attributes. -/
theorem c6_exclusionary_label_card_dropped (b : Option Board)
    (ls : Option (List TrelloList)) (lbs : Option (List TrelloLabel))
    (ms : Option (List Member)) (cs1 cs2 : List Card) (c : Card)
    (h : (c.idLabels.getD []).any
        (fun l => ignoreCardsWithAtLeastOneOfTheseLabelIds.contains l) = true) :
    aggregate b ls lbs ms (some (cs1 ++ c :: cs2))
      = aggregate b ls lbs ms (some (cs1 ++ cs2)) := by
  have hk : keepCard c = false := by
    cases hv : c.idList with
    | none => simp [keepCard, hv]
    | some s =>
      simp only [keepCard, hv]
      by_cases h1 : s = ""
      · rw [if_pos h1]
      · rw [if_neg h1]
        by_cases h2 : listsToIgnore.contains s = true
        · rw [if_pos h2]
        · rw [if_neg h2, if_pos h]
  simp only [aggregate, pipelineCards_drop cs1 cs2 c hk]

/-- Witness for C6: dropping a concrete card labeled with the Divider
label id leaves the metrics of the empty input. -/
theorem c6_exclusionary_label_card_dropped_witness :
    ((Card.mk ("w6") (some ("67f45c29f80d25da0f543428"))
        (some ["681a3bbe267f382f9ed138e8"]) none false none none).idLabels.getD []).any
      (fun l => ignoreCardsWithAtLeastOneOfTheseLabelIds.contains l) = true ∧
    aggregate none none none none
        (some [Card.mk ("w6") (some ("67f45c29f80d25da0f543428"))
          (some ["681a3bbe267f382f9ed138e8"]) none false none none])
      = aggregate none none none none (some []) :=
  ⟨by decide,
   c6_exclusionary_label_card_dropped none none none none [] []
     (Card.mk ("w6") (some ("67f45c29f80d25da0f543428"))
       (some ["681a3bbe267f382f9ed138e8"]) none false none none) (by decide)⟩

/-- Counterexample for C2: the metrics mapping iterates in the
insertion order of the object literal, which differs from the fixed
family list stated by the spec (lists_per_board third, the priority
and time families fourth and fifth). -/
theorem c2_family_order_counterexample :
    (aggregate none none none none none).map Prod.fst
        = ["trello_boards_total", "trello_cards_in_list_total",
           "trello_labeled_cards_on_board", "trello_cards_per_board_member",
           "trello_lists_per_board", "trello_time_in_list_total",
           "trello_cards_by_priority_total", "trello_cards_by_time_total"] ∧
    (aggregate none none none none none).map Prod.fst
        ≠ ["trello_boards_total", "trello_lists_per_board",
           "trello_cards_in_list_total", "trello_cards_by_priority_total",
           "trello_cards_by_time_total", "trello_time_in_list_total",
           "trello_labeled_cards_on_board", "trello_cards_per_board_member"] := by
  constructor
  · rfl
  · decide

/-- Claim C2 (amended): for every input, the formatted metric families
appear in the iteration (insertion) order of the aggregator's mapping,
which is boards, cards_in_list, labeled_cards, cards_per_member,
lists_per_board, time_in_list, cards_by_priority, cards_by_time; within
each family the samples appear in the order the aggregator produced
them. -/
theorem c2_family_order_amended (b : Option Board) (ls : Option (List TrelloList))
    (lbs : Option (List TrelloLabel)) (ms : Option (List Member))
    (cs : Option (List Card)) :
    (aggregate b ls lbs ms cs).map Prod.fst
        = ["trello_boards_total", "trello_cards_in_list_total",
           "trello_labeled_cards_on_board", "trello_cards_per_board_member",
           "trello_lists_per_board", "trello_time_in_list_total",
           "trello_cards_by_priority_total", "trello_cards_by_time_total"] := by
  rfl

/-- Claim C1 (code bug): on the board name `He said "hi"` followed by
a newline, the aggregator pre-escapes the label value and the
formatter escapes it again, so the emitted `trello_lists_per_board`
sample line carries the doubly escaped text and does not contain the
singly escaped text the spec requires. -/
theorem c1_escaping_code_bug :
    escapeLabel ("He said \"hi\"\n") = ("He said \\\"hi\\\"\\n") ∧
    (aggregate (some (Board.mk (some ("He said \"hi\"\n")))) none none none
          none).lookup ("trello_lists_per_board")
      = some (MetricData.mk ("Number of lists per board")
          [Sample.mk [("board", escapeLabel ("He said \"hi\"\n"))] 0]) ∧
    formatSample ("trello_lists_per_board")
        (Sample.mk [("board", escapeLabel ("He said \"hi\"\n"))] 0)
      = ("trello_lists_per_board\x7bboard=\"He said \\\\\\\"hi\\\\\\\"\\\\n\"\x7d 0\n") ∧
    hasSeq ("He said \\\"hi\\\"\\n").data
        ("trello_lists_per_board\x7bboard=\"He said \\\\\\\"hi\\\\\\\"\\\\n\"\x7d 0\n").data
      = false := by
  refine ⟨by decide, by decide, by decide, by decide⟩

/-- A kept card has a non-empty list reference. -/
theorem keepCard_some (c : Card) (h : keepCard c = true) :
    ∃ s, c.idList = some s ∧ ¬s = "" := by
  cases hv : c.idList with
  | none =>
    simp [keepCard, hv] at h
  | some s =>
    refine ⟨s, rfl, ?_⟩
    intro h1
    simp [keepCard, hv, h1] at h

/-- Claim C4: for every input, the priority family emits exactly one
sample per static priority-table entry and the time family exactly one
sample per static time-table entry, in table order, zero counts
included; the label and member families never emit a zero-count
sample. -/
theorem c4_enumeration_and_suppression (bn : String) (cards : List ECard)
    (labelList : List TrelloLabel) (memberList : List Member) :
    ((cardsByPrioritySamples bn cards).map (fun s => s.labels.lookup ("priority")))
        = priorityMap.map (fun e => some (escapeLabel e.2)) ∧
    (cardsByPrioritySamples bn cards).length = priorityMap.length ∧
    ((cardsByTimeSamples bn cards).map (fun s => s.labels.lookup ("time")))
        = timeMap.map (fun e => some (escapeLabel e.2.range)) ∧
    (cardsByTimeSamples bn cards).length = timeMap.length ∧
    (∀ s ∈ labeledCardsSamples bn labelList cards, 0 < s.value) ∧
    (∀ s ∈ memberCardsSamples bn memberList cards, 0 < s.value) := by
  refine ⟨rfl, rfl, rfl, rfl, ?_, ?_⟩
  · intro s hs
    simp only [labeledCardsSamples, List.mem_filterMap] at hs
    obtain ⟨lab, hmem, heq⟩ := hs
    by_cases hp : cardsByLabel cards lab.id > 0
    · rw [if_pos hp] at heq
      have hv := Option.some.inj heq
      rw [← hv]
      exact hp
    · rw [if_neg hp] at heq
      exact absurd heq (by simp)
  · intro s hs
    simp only [memberCardsSamples, List.mem_filterMap] at hs
    obtain ⟨m, hmem, heq⟩ := hs
    by_cases hp : cardsByMember cards m.id > 0
    · rw [if_pos hp] at heq
      have hv := Option.some.inj heq
      rw [← hv]
      exact hp
    · rw [if_neg hp] at heq
      exact absurd heq (by simp)

/-- Witness for C4: on a one-card input with one label and one member,
the emitted label sample has a positive count. -/
theorem c4_enumeration_and_suppression_witness :
    Sample.mk [("board", "B"), ("label", escapeLabel ("Urgent"))] 1
        ∈ labeledCardsSamples ("B") [TrelloLabel.mk ("lab1") (some ("Urgent")) none]
          [ECard.mk (Card.mk ("c1") (some ("L")) (some ["lab1"]) (some ["m1"]) false none none)
            (CustomInfo.mk none none)] ∧
    0 < (Sample.mk [("board", "B"), ("label", escapeLabel ("Urgent"))] 1).value ∧
    Sample.mk [("board", "B"), ("member", escapeLabel ("Max"))] 1
        ∈ memberCardsSamples ("B") [Member.mk ("m1") (some ("Max")) none]
          [ECard.mk (Card.mk ("c1") (some ("L")) (some ["lab1"]) (some ["m1"]) false none none)
            (CustomInfo.mk none none)] ∧
    0 < (Sample.mk [("board", "B"), ("member", escapeLabel ("Max"))] 1).value :=
  ⟨by decide,
   (c4_enumeration_and_suppression ("B")
      [ECard.mk (Card.mk ("c1") (some ("L")) (some ["lab1"]) (some ["m1"]) false none none)
        (CustomInfo.mk none none)]
      [TrelloLabel.mk ("lab1") (some ("Urgent")) none]
      [Member.mk ("m1") (some ("Max")) none]).2.2.2.2.1
     (Sample.mk [("board", "B"), ("label", escapeLabel ("Urgent"))] 1) (by decide),
   by decide,
   (c4_enumeration_and_suppression ("B")
      [ECard.mk (Card.mk ("c1") (some ("L")) (some ["lab1"]) (some ["m1"]) false none none)
        (CustomInfo.mk none none)]
      [TrelloLabel.mk ("lab1") (some ("Urgent")) none]
      [Member.mk ("m1") (some ("Max")) none]).2.2.2.2.2
     (Sample.mk [("board", "B"), ("member", escapeLabel ("Max"))] 1) (by decide)⟩

/-- Claim C5: the priority family counts only non-archived cards with
a matching resolved priority whose list is not a done list, while the
time family counts every non-archived card with a matching resolved
time range, done lists included; hence a non-archived surviving card
with both fields resolved that sits in a done list is counted by the
time family and by no priority count. -/
theorem c5_priority_time_asymmetry (cs1 cs2 : List Card) (c : Card) (p : String)
    (t : TimeInfo) (h1 : keepCard c = true) (h2 : c.closed = false)
    (h3 : (resolveCustom (c.customFieldItems.getD [])).priority = some p)
    (h4 : (resolveCustom (c.customFieldItems.getD [])).time = some t)
    (h5 : doneLists.contains (c.idList.getD "") = true) :
    (∀ (cards : List ECard) (q : String), cardsByPriority cards q
        = cards.countP (fun e => !e.card.closed && (e.customInfo.priority == some q)
            && !doneLists.contains (e.card.idList.getD ""))) ∧
    (∀ (cards : List ECard) (q : String), cardsByTime cards q
        = cards.countP (fun e => !e.card.closed
            && (Option.map TimeInfo.range e.customInfo.time == some q))) ∧
    cardsByTime (pipelineCards (some (cs1 ++ c :: cs2))) t.range
        = cardsByTime (pipelineCards (some (cs1 ++ cs2))) t.range + 1 ∧
    (∀ q, cardsByPriority (pipelineCards (some (cs1 ++ c :: cs2))) q
        = cardsByPriority (pipelineCards (some (cs1 ++ cs2))) q) := by
  refine ⟨cardsByPriority_countP, cardsByTime_countP, ?_, ?_⟩
  · rw [pipelineCards_insert cs1 cs2 c h1, pipelineCards_union]
    unfold cardsByTime
    rw [count_fold_insert stepTime gTime stepTime_apply]
    have hg : gTime (enrich c) t.range = 1 := by
      simp [gTime, enrich, h2, h4]
    rw [hg]
  · intro q
    rw [pipelineCards_insert cs1 cs2 c h1, pipelineCards_union]
    unfold cardsByPriority
    rw [count_fold_insert stepPriority gPriority stepPriority_apply]
    have h5m : c.idList.getD "" ∈ doneLists := by
      simpa using h5
    have hg : gPriority (enrich c) q = 0 := by
      simp [gPriority, enrich, h5m]
    rw [hg]
    omega

/-- Witness for C5: a concrete card in the Done list with a resolved
priority and a resolved time estimate bumps the time count and leaves
the Highest priority count unchanged. -/
theorem c5_priority_time_asymmetry_witness :
    keepCard (Card.mk ("w5") (some ("62ba39f7fc9ece2c518208a7")) none none false none
        (some [CustomFieldItem.mk (some ("63237551f4e1250062d584d7")),
               CustomFieldItem.mk (some ("6317987e46e82a010a822ec0"))])) = true ∧
    (resolveCustom ((Card.mk ("w5") (some ("62ba39f7fc9ece2c518208a7")) none none false none
        (some [CustomFieldItem.mk (some ("63237551f4e1250062d584d7")),
               CustomFieldItem.mk (some ("6317987e46e82a010a822ec0"))])).customFieldItems.getD
          [])).time = some (TimeInfo.mk ("<5 min") ("5 min") ("3 minutes") 180) ∧
    doneLists.contains ((Card.mk ("w5") (some ("62ba39f7fc9ece2c518208a7")) none none false none
        (some [CustomFieldItem.mk (some ("63237551f4e1250062d584d7")),
               CustomFieldItem.mk (some ("6317987e46e82a010a822ec0"))])).idList.getD "")
      = true ∧
    cardsByTime (pipelineCards (some [Card.mk ("w5") (some ("62ba39f7fc9ece2c518208a7"))
          none none false none
          (some [CustomFieldItem.mk (some ("63237551f4e1250062d584d7")),
                 CustomFieldItem.mk (some ("6317987e46e82a010a822ec0"))])]))
        ((TimeInfo.mk ("<5 min") ("5 min") ("3 minutes") 180).range)
      = cardsByTime (pipelineCards (some []))
          ((TimeInfo.mk ("<5 min") ("5 min") ("3 minutes") 180).range) + 1 ∧
    cardsByPriority (pipelineCards (some [Card.mk ("w5") (some ("62ba39f7fc9ece2c518208a7"))
          none none false none
          (some [CustomFieldItem.mk (some ("63237551f4e1250062d584d7")),
                 CustomFieldItem.mk (some ("6317987e46e82a010a822ec0"))])])) ("Highest")
      = cardsByPriority (pipelineCards (some [])) ("Highest") :=
  ⟨by decide, by decide, by decide,
   (c5_priority_time_asymmetry [] []
      (Card.mk ("w5") (some ("62ba39f7fc9ece2c518208a7")) none none false none
        (some [CustomFieldItem.mk (some ("63237551f4e1250062d584d7")),
               CustomFieldItem.mk (some ("6317987e46e82a010a822ec0"))]))
      ("Highest") (TimeInfo.mk ("<5 min") ("5 min") ("3 minutes") 180)
      (by decide) (by decide) (by decide) (by decide) (by decide)).2.2.1,
   (c5_priority_time_asymmetry [] []
      (Card.mk ("w5") (some ("62ba39f7fc9ece2c518208a7")) none none false none
        (some [CustomFieldItem.mk (some ("63237551f4e1250062d584d7")),
               CustomFieldItem.mk (some ("6317987e46e82a010a822ec0"))]))
      ("Highest") (TimeInfo.mk ("<5 min") ("5 min") ("3 minutes") 180)
      (by decide) (by decide) (by decide) (by decide) (by decide)).2.2.2 ("Highest")⟩

/-- Claim C10: in the label and member families, a non-archived
surviving card whose identifier array contains the same identifier k
times contributes k, not 1, to that identifier's count: occurrences
are counted per array entry, with no de-duplication within a card. -/
theorem c10_multiplicity_counting (cs1 cs2 : List Card) (c : Card) (lab mid : String)
    (kL kM : Nat) (h1 : keepCard c = true) (h2 : c.closed = false)
    (h3 : (c.idLabels.getD []).count lab = kL)
    (h4 : (c.idMembers.getD []).count mid = kM) :
    cardsByLabel (pipelineCards (some (cs1 ++ c :: cs2))) lab
        = cardsByLabel (pipelineCards (some (cs1 ++ cs2))) lab + kL ∧
    cardsByMember (pipelineCards (some (cs1 ++ c :: cs2))) mid
        = cardsByMember (pipelineCards (some (cs1 ++ cs2))) mid + kM := by
  rw [pipelineCards_insert cs1 cs2 c h1, pipelineCards_union]
  unfold cardsByLabel cardsByMember
  rw [count_fold_insert stepLabel gLabel stepLabel_apply,
      count_fold_insert stepMember gMember stepMember_apply]
  constructor
  · simp [gLabel, enrich, h2, h3]
  · simp [gMember, enrich, h2, h4]

/-- Witness for C10: a card carrying the same label id twice and the
same member id three times contributes 2 and 3 respectively. -/
theorem c10_multiplicity_counting_witness :
    ((Card.mk ("w10") (some ("L")) (some ["a", "a"]) (some ["m", "m", "m"]) false none
        none).idLabels.getD []).count ("a") = 2 ∧
    ((Card.mk ("w10") (some ("L")) (some ["a", "a"]) (some ["m", "m", "m"]) false none
        none).idMembers.getD []).count ("m") = 3 ∧
    cardsByLabel (pipelineCards (some [Card.mk ("w10") (some ("L")) (some ["a", "a"])
          (some ["m", "m", "m"]) false none none])) ("a")
      = cardsByLabel (pipelineCards (some [])) ("a") + 2 ∧
    cardsByMember (pipelineCards (some [Card.mk ("w10") (some ("L")) (some ["a", "a"])
          (some ["m", "m", "m"]) false none none])) ("m")
      = cardsByMember (pipelineCards (some [])) ("m") + 3 :=
  ⟨by decide, by decide,
   (c10_multiplicity_counting [] []
      (Card.mk ("w10") (some ("L")) (some ["a", "a"]) (some ["m", "m", "m"]) false none none)
      ("a") ("m") 2 3 (by decide) (by decide) (by decide) (by decide)).1,
   (c10_multiplicity_counting [] []
      (Card.mk ("w10") (some ("L")) (some ["a", "a"]) (some ["m", "m", "m"]) false none none)
      ("a") ("m") 2 3 (by decide) (by decide) (by decide) (by decide)).2⟩

/-- Claim C9: a non-archived card surviving the filter whose list
reference matches no surviving list changes neither the
cards-in-list samples nor the time-in-list samples, yet its
contributions to the priority, time, label, and member counts are
exactly the usual ones. -/
theorem c9_unknown_list_reference (bn : String) (lsRaw : Option (List TrelloList))
    (cs1 cs2 : List Card) (c : Card)
    (h1 : keepCard c = true) (h2 : c.closed = false)
    (h3 : ∀ l ∈ survivingLists lsRaw, some l.id ≠ c.idList) :
    cardsInListSamples bn (survivingLists lsRaw) (pipelineCards (some (cs1 ++ c :: cs2)))
        = cardsInListSamples bn (survivingLists lsRaw) (pipelineCards (some (cs1 ++ cs2))) ∧
    timeInListSamples bn (survivingLists lsRaw) (pipelineCards (some (cs1 ++ c :: cs2)))
        = timeInListSamples bn (survivingLists lsRaw) (pipelineCards (some (cs1 ++ cs2))) ∧
    (∀ p, (resolveCustom (c.customFieldItems.getD [])).priority = some p →
      doneLists.contains (c.idList.getD "") = false →
      cardsByPriority (pipelineCards (some (cs1 ++ c :: cs2))) p
        = cardsByPriority (pipelineCards (some (cs1 ++ cs2))) p + 1) ∧
    (∀ t, (resolveCustom (c.customFieldItems.getD [])).time = some t →
      cardsByTime (pipelineCards (some (cs1 ++ c :: cs2))) t.range
        = cardsByTime (pipelineCards (some (cs1 ++ cs2))) t.range + 1) ∧
    (∀ q, cardsByLabel (pipelineCards (some (cs1 ++ c :: cs2))) q
        = cardsByLabel (pipelineCards (some (cs1 ++ cs2))) q + (c.idLabels.getD []).count q) ∧
    (∀ q, cardsByMember (pipelineCards (some (cs1 ++ c :: cs2))) q
        = cardsByMember (pipelineCards (some (cs1 ++ cs2))) q + (c.idMembers.getD []).count q) := by
  obtain ⟨s, hs, hne⟩ := keepCard_some c h1
  refine ⟨?_, ?_, ?_, ?_, ?_, ?_⟩
  · unfold cardsInListSamples
    apply List.map_congr_left
    intro l hl
    have hns : ¬l.id = c.idList.getD "" := by
      rw [hs, Option.getD_some]
      intro he
      exact (h3 l hl) (by rw [he, hs])
    have hval : cardsByList (pipelineCards (some (cs1 ++ c :: cs2))) l.id
        = cardsByList (pipelineCards (some (cs1 ++ cs2))) l.id := by
      rw [pipelineCards_insert cs1 cs2 c h1, pipelineCards_union]
      unfold cardsByList
      rw [count_fold_insert stepList gList stepList_apply]
      have hg : gList (enrich c) l.id = 0 := by
        simp [gList, enrich, hns]
      rw [hg]
      omega
    rw [hval]
  · unfold timeInListSamples
    apply List.map_congr_left
    intro l hl
    have hns : ¬l.id = c.idList.getD "" := by
      rw [hs, Option.getD_some]
      intro he
      exact (h3 l hl) (by rw [he, hs])
    have hval : cardTimeByList (pipelineCards (some (cs1 ++ c :: cs2))) l.id
        = cardTimeByList (pipelineCards (some (cs1 ++ cs2))) l.id := by
      rw [pipelineCards_insert cs1 cs2 c h1, pipelineCards_union]
      unfold cardTimeByList
      rw [count_fold_insert stepTimeSeconds gTimeSeconds stepTimeSeconds_apply]
      have hg : gTimeSeconds (enrich c) l.id = 0 := by
        cases hti : (resolveCustom (c.customFieldItems.getD [])).time with
        | none => simp [gTimeSeconds, enrich, hti]
        | some t => simp [gTimeSeconds, enrich, hti, hns]
      rw [hg]
      omega
    rw [hval]
  · intro p hp hd
    rw [pipelineCards_insert cs1 cs2 c h1, pipelineCards_union]
    unfold cardsByPriority
    rw [count_fold_insert stepPriority gPriority stepPriority_apply]
    have hdm : c.idList.getD "" ∉ doneLists := by
      simpa using hd
    have hg : gPriority (enrich c) p = 1 := by
      simp [gPriority, enrich, h2, hp, hdm]
    rw [hg]
  · intro t ht
    rw [pipelineCards_insert cs1 cs2 c h1, pipelineCards_union]
    unfold cardsByTime
    rw [count_fold_insert stepTime gTime stepTime_apply]
    have hg : gTime (enrich c) t.range = 1 := by
      simp [gTime, enrich, h2, ht]
    rw [hg]
  · intro q
    rw [pipelineCards_insert cs1 cs2 c h1, pipelineCards_union]
    unfold cardsByLabel
    rw [count_fold_insert stepLabel gLabel stepLabel_apply]
    have hg : gLabel (enrich c) q = (c.idLabels.getD []).count q := by
      simp [gLabel, enrich, h2]
    rw [hg]
  · intro q
    rw [pipelineCards_insert cs1 cs2 c h1, pipelineCards_union]
    unfold cardsByMember
    rw [count_fold_insert stepMember gMember stepMember_apply]
    have hg : gMember (enrich c) q = (c.idMembers.getD []).count q := by
      simp [gMember, enrich, h2]
    rw [hg]

/-- Witness for C9: a surviving non-archived card referencing the
unknown list id X leaves both list-keyed sample lists unchanged while
bumping the High priority count, its time-range count, and its label
and member counts. -/
theorem c9_unknown_list_reference_witness :
    cardsInListSamples ("B") (survivingLists (some [TrelloList.mk ("L1") ("listone")]))
        (pipelineCards (some [Card.mk ("w9") (some ("X")) (some ["a"]) (some ["m"]) false none
      (some [CustomFieldItem.mk (some ("63237551f4e1250062d584d8")),
             CustomFieldItem.mk (some ("6317987e46e82a010a822ec1"))])]))
      = cardsInListSamples ("B") (survivingLists (some [TrelloList.mk ("L1") ("listone")]))
        (pipelineCards (some [])) ∧
    timeInListSamples ("B") (survivingLists (some [TrelloList.mk ("L1") ("listone")]))
        (pipelineCards (some [Card.mk ("w9") (some ("X")) (some ["a"]) (some ["m"]) false none
      (some [CustomFieldItem.mk (some ("63237551f4e1250062d584d8")),
             CustomFieldItem.mk (some ("6317987e46e82a010a822ec1"))])]))
      = timeInListSamples ("B") (survivingLists (some [TrelloList.mk ("L1") ("listone")]))
        (pipelineCards (some [])) ∧
    cardsByPriority (pipelineCards (some [Card.mk ("w9") (some ("X")) (some ["a"]) (some ["m"]) false none
      (some [CustomFieldItem.mk (some ("63237551f4e1250062d584d8")),
             CustomFieldItem.mk (some ("6317987e46e82a010a822ec1"))])])) ("High")
      = cardsByPriority (pipelineCards (some [])) ("High") + 1 ∧
    cardsByTime (pipelineCards (some [Card.mk ("w9") (some ("X")) (some ["a"]) (some ["m"]) false none
      (some [CustomFieldItem.mk (some ("63237551f4e1250062d584d8")),
             CustomFieldItem.mk (some ("6317987e46e82a010a822ec1"))])])) ((TimeInfo.mk ("5 min - 15 min") ("5 min") ("10 minutes") 600).range)
      = cardsByTime (pipelineCards (some [])) ((TimeInfo.mk ("5 min - 15 min") ("5 min") ("10 minutes") 600).range) + 1 ∧
    cardsByLabel (pipelineCards (some [Card.mk ("w9") (some ("X")) (some ["a"]) (some ["m"]) false none
      (some [CustomFieldItem.mk (some ("63237551f4e1250062d584d8")),
             CustomFieldItem.mk (some ("6317987e46e82a010a822ec1"))])])) ("a")
      = cardsByLabel (pipelineCards (some [])) ("a")
        + ((Card.mk ("w9") (some ("X")) (some ["a"]) (some ["m"]) false none
      (some [CustomFieldItem.mk (some ("63237551f4e1250062d584d8")),
             CustomFieldItem.mk (some ("6317987e46e82a010a822ec1"))])).idLabels.getD []).count ("a") ∧
    cardsByMember (pipelineCards (some [Card.mk ("w9") (some ("X")) (some ["a"]) (some ["m"]) false none
      (some [CustomFieldItem.mk (some ("63237551f4e1250062d584d8")),
             CustomFieldItem.mk (some ("6317987e46e82a010a822ec1"))])])) ("m")
      = cardsByMember (pipelineCards (some [])) ("m")
        + ((Card.mk ("w9") (some ("X")) (some ["a"]) (some ["m"]) false none
      (some [CustomFieldItem.mk (some ("63237551f4e1250062d584d8")),
             CustomFieldItem.mk (some ("6317987e46e82a010a822ec1"))])).idMembers.getD []).count ("m") :=
  ⟨(c9_unknown_list_reference ("B") (some [TrelloList.mk ("L1") ("listone")]) [] []
    (Card.mk ("w9") (some ("X")) (some ["a"]) (some ["m"]) false none
      (some [CustomFieldItem.mk (some ("63237551f4e1250062d584d8")),
             CustomFieldItem.mk (some ("6317987e46e82a010a822ec1"))])) (by decide) (by decide) (by decide)).1,
   (c9_unknown_list_reference ("B") (some [TrelloList.mk ("L1") ("listone")]) [] []
    (Card.mk ("w9") (some ("X")) (some ["a"]) (some ["m"]) false none
      (some [CustomFieldItem.mk (some ("63237551f4e1250062d584d8")),
             CustomFieldItem.mk (some ("6317987e46e82a010a822ec1"))])) (by decide) (by decide) (by decide)).2.1,
   (c9_unknown_list_reference ("B") (some [TrelloList.mk ("L1") ("listone")]) [] []
    (Card.mk ("w9") (some ("X")) (some ["a"]) (some ["m"]) false none
      (some [CustomFieldItem.mk (some ("63237551f4e1250062d584d8")),
             CustomFieldItem.mk (some ("6317987e46e82a010a822ec1"))])) (by decide) (by decide) (by decide)).2.2.1 ("High") (by decide) (by decide),
   (c9_unknown_list_reference ("B") (some [TrelloList.mk ("L1") ("listone")]) [] []
    (Card.mk ("w9") (some ("X")) (some ["a"]) (some ["m"]) false none
      (some [CustomFieldItem.mk (some ("63237551f4e1250062d584d8")),
             CustomFieldItem.mk (some ("6317987e46e82a010a822ec1"))])) (by decide) (by decide) (by decide)).2.2.2.1 (TimeInfo.mk ("5 min - 15 min") ("5 min") ("10 minutes") 600) (by decide),
   (c9_unknown_list_reference ("B") (some [TrelloList.mk ("L1") ("listone")]) [] []
    (Card.mk ("w9") (some ("X")) (some ["a"]) (some ["m"]) false none
      (some [CustomFieldItem.mk (some ("63237551f4e1250062d584d8")),
             CustomFieldItem.mk (some ("6317987e46e82a010a822ec1"))])) (by decide) (by decide) (by decide)).2.2.2.2.1 ("a"),
   (c9_unknown_list_reference ("B") (some [TrelloList.mk ("L1") ("listone")]) [] []
    (Card.mk ("w9") (some ("X")) (some ["a"]) (some ["m"]) false none
      (some [CustomFieldItem.mk (some ("63237551f4e1250062d584d8")),
             CustomFieldItem.mk (some ("6317987e46e82a010a822ec1"))])) (by decide) (by decide) (by decide)).2.2.2.2.2 ("m")⟩

/-- Claim C3: the values of the cards-in-list samples sum to the
number of raw cards that survive the filter, are non-archived, and
reference the identifier of some surviving list. -/
theorem c3_cards_in_list_sum (bn : String) (lsRaw : Option (List TrelloList))
    (csRaw : Option (List Card))
    (hn : ((survivingLists lsRaw).map (fun l => l.id)).Nodup) :
    ((cardsInListSamples bn (survivingLists lsRaw) (pipelineCards csRaw)).map
        (fun s => s.value)).sum
      = (csRaw.getD []).countP (fun c => keepCard c && !c.closed
          && ((survivingLists lsRaw).map (fun l => l.id)).contains (c.idList.getD "")) := by
  have hL : (cardsInListSamples bn (survivingLists lsRaw) (pipelineCards csRaw)).map
      (fun s => s.value)
      = (survivingLists lsRaw).map (fun l => cardsByList (pipelineCards csRaw) l.id) := by
    unfold cardsInListSamples
    rw [List.map_map]
    rfl
  rw [hL]
  have hC : (survivingLists lsRaw).map (fun l => cardsByList (pipelineCards csRaw) l.id)
      = (survivingLists lsRaw).map (fun l => (pipelineCards csRaw).countP
          (fun e => !e.card.closed && (l.id == e.card.idList.getD ""))) := by
    apply List.map_congr_left
    intro l _
    exact cardsByList_countP _ _
  rw [hC]
  have hIds : (survivingLists lsRaw).map (fun l => (pipelineCards csRaw).countP
        (fun e => !e.card.closed && (l.id == e.card.idList.getD "")))
      = ((survivingLists lsRaw).map (fun l => l.id)).map
          (fun i => (pipelineCards csRaw).countP
            (fun e => !e.card.closed && (i == e.card.idList.getD ""))) := by
    rw [List.map_map]
    rfl
  rw [hIds]
  rw [sum_countP_nodup (pipelineCards csRaw) (fun e => !e.card.closed)
      (fun e => e.card.idList.getD "") ((survivingLists lsRaw).map (fun l => l.id)) hn]
  unfold pipelineCards
  rw [List.countP_map, List.countP_filter]
  apply List.countP_congr
  intro c _
  cases hk : keepCard c
  · simp [Function.comp, enrich, hk]
  · simp [Function.comp, enrich, hk]

/-- Witness for C3: two surviving lists with duplicate-free ids, four
cards of which one is archived and one references an unknown list; the
sample values sum to the count of the two qualifying cards. -/
theorem c3_cards_in_list_sum_witness :
    ((survivingLists (some [TrelloList.mk ("A") ("ListA"), TrelloList.mk ("B2") ("ListB")])).map (fun l => l.id)).Nodup ∧
    ((cardsInListSamples ("B") (survivingLists (some [TrelloList.mk ("A") ("ListA"), TrelloList.mk ("B2") ("ListB")]))
        (pipelineCards (some [Card.mk ("c1") (some ("A")) none none false none none,
          Card.mk ("c2") (some ("A")) none none true none none,
          Card.mk ("c3") (some ("Z")) none none false none none,
          Card.mk ("c4") (some ("B2")) none none false none none]))).map (fun s => s.value)).sum
      = ((some [Card.mk ("c1") (some ("A")) none none false none none,
          Card.mk ("c2") (some ("A")) none none true none none,
          Card.mk ("c3") (some ("Z")) none none false none none,
          Card.mk ("c4") (some ("B2")) none none false none none]).getD []).countP (fun c => keepCard c && !c.closed
          && ((survivingLists (some [TrelloList.mk ("A") ("ListA"), TrelloList.mk ("B2") ("ListB")])).map (fun l => l.id)).contains (c.idList.getD "")) :=
  ⟨by decide,
   c3_cards_in_list_sum ("B") (some [TrelloList.mk ("A") ("ListA"), TrelloList.mk ("B2") ("ListB")]) (some [Card.mk ("c1") (some ("A")) none none false none none,
          Card.mk ("c2") (some ("A")) none none true none none,
          Card.mk ("c3") (some ("Z")) none none false none none,
          Card.mk ("c4") (some ("B2")) none none false none none]) (by decide)⟩

/-- Claim C8: the aggregation core is total on well-typed input and
tolerates missing optional data by defaulting: absent collections act
as empty, an absent board name becomes (unknown), a label name falls
back to color then unlabeled, a member name falls back to username
then identifier, a card without a resolved time estimate adds nothing
to its list's seconds, and the mapping always carries all eight
families. -/
theorem c8_totality_defaulting :
    (∀ b, aggregate b none none none none
        = aggregate b (some []) (some []) (some []) (some [])) ∧
    boardDisplayName (some (Board.mk none)) = "(unknown)" ∧
    boardDisplayName none = "(unknown)" ∧
    (∀ lid col, ¬col = "" →
      labelDisplayName (TrelloLabel.mk lid none (some col)) = col) ∧
    (∀ lid, labelDisplayName (TrelloLabel.mk lid none none) = "unlabeled") ∧
    (∀ mid u, ¬u = "" → memberDisplayName (Member.mk mid none (some u)) = u) ∧
    (∀ mid, memberDisplayName (Member.mk mid none none) = mid) ∧
    (∀ (m : String → Nat) (e : ECard), e.customInfo.time = none →
      stepTimeSeconds m e = m) ∧
    (∀ b ls lbs ms cs, (aggregate b ls lbs ms cs).length = 8) := by
  refine ⟨fun b => rfl, rfl, rfl, ?_, fun lid => rfl, ?_, fun mid => rfl, ?_, ?_⟩
  · intro lid col h
    simp [labelDisplayName, jsOr, h]
  · intro mid u h
    simp [memberDisplayName, jsOr, h]
  · intro m e he
    unfold stepTimeSeconds
    rw [he]
  · intro b ls lbs ms cs
    rfl

/-- Witness for C8: the defaulting equations at concrete inputs. -/
theorem c8_totality_defaulting_witness :
    aggregate none none none none none
      = aggregate none (some []) (some []) (some []) (some []) ∧
    labelDisplayName (TrelloLabel.mk ("x") none (some ("red"))) = "red" ∧
    memberDisplayName (Member.mk ("m1") none (some ("user"))) = "user" ∧
    stepTimeSeconds zeroMap
        (ECard.mk (Card.mk ("c") (some ("L")) none none false none none)
          (CustomInfo.mk none (some ("High"))))
      = zeroMap ∧
    (aggregate none none none none none).length = 8 :=
  ⟨c8_totality_defaulting.1 none,
   c8_totality_defaulting.2.2.2.1 ("x") ("red") (by decide),
   c8_totality_defaulting.2.2.2.2.2.1 ("m1") ("user") (by decide),
   c8_totality_defaulting.2.2.2.2.2.2.2.1 zeroMap
     (ECard.mk (Card.mk ("c") (some ("L")) none none false none none)
       (CustomInfo.mk none (some ("High")))) rfl,
   c8_totality_defaulting.2.2.2.2.2.2.2.2 none none none none none⟩
